import Mathlib

/-!
# GradSmooth: the command-line driver

A shallow embedding of `main` from `src/gradsmooth.cpp`.

`main` is the only function of the repository whose body is available.  It is
embedded statement by statement as a function from the command line and the
contents of the disk to an `Outcome`: the log records emitted, the sequence of
calls made on the collaborating objects (`PointCloud`, `KDTree`, `Smoother`),
the return statement taken and the exit status.

The scalar type `α` stands for C++ `double`.  No algebraic law is assumed of
its `+` and `*`; the literals `0.10` and `0.0` are read through `OfScientific`.
`int32` flag values are integers; `main` does no arithmetic on them.

The classes declared in `include/PointCloud.h` and `include/smoother.h` are not
part of the available source.  Their methods are modelled from the
specification and marked as such.
-/

namespace GradSmooth

/-! ## Logging (plog) -/

/-- Severity levels of plog, in its numeric order (`none = 0` … `verbose = 6`). -/
inductive Severity
  | none | fatal | error | warning | info | debug | verbose
  deriving DecidableEq, Repr

/-- Numeric value of a plog severity. -/
def Severity.toNat : Severity → Nat
  | .none => 0
  | .fatal => 1
  | .error => 2
  | .warning => 3
  | .info => 4
  | .debug => 5
  | .verbose => 6

/-- One record written to the console appender. -/
structure LogRecord where
  severity : Severity
  message : String
  deriving DecidableEq, Repr

/-- Line 44: `plog::init(plog::info, &consoleAppender)`. -/
def maxSeverity : Severity := Severity.info

/-- A record is emitted when its severity does not exceed the logger's maximum. -/
def checkSeverity (s : Severity) : Bool :=
  decide (s.toNat ≤ maxSeverity.toNat)

/-- The `LOG_*` macros: append the record when the severity passes the filter. -/
def LOG (log : List LogRecord) (s : Severity) (message : String) : List LogRecord :=
  if checkSeverity s then log ++ [{ severity := s, message := message }] else log

/-! ## Command-line flags (gflags) -/

/-- The nine `FLAGS_*` globals defined on lines 31–39. -/
structure Flags (α : Type) where
  normal_projection : Bool
  lock_neighbors : Bool
  step_size_normal : α
  step_size_tangent : α
  num_neighbors : Int
  iterations : Int
  max_leaf_size : Int
  num_threads : Int
  codimension : Int
  deriving DecidableEq, Repr

/-- The default values given in the `DEFINE_*` lines 31–39. -/
def FLAGS_default {α : Type} [OfScientific α] : Flags α :=
  { normal_projection := false
    lock_neighbors := false
    step_size_normal := 0.10
    step_size_tangent := 0.0
    num_neighbors := 5
    iterations := 10
    max_leaf_size := 10
    num_threads := 1
    codimension := 1 }

/-- A well-formed flag argument, after gflags has recognised the flag name and
converted the value to the flag's type. -/
inductive FlagSetting (α : Type)
  | normal_projection (v : Bool)
  | lock_neighbors (v : Bool)
  | step_size_normal (v : α)
  | step_size_tangent (v : α)
  | num_neighbors (v : Int)
  | iterations (v : Int)
  | max_leaf_size (v : Int)
  | num_threads (v : Int)
  | codimension (v : Int)
  deriving DecidableEq, Repr

/-- An element of `argv[1..]` as the operating system hands it to `main`. -/
inductive Arg (α : Type)
  | flag (f : FlagSetting α)
  | positional (s : String)
  deriving DecidableEq, Repr

/-- Assigning one flag. -/
def FlagSetting.assign {α : Type} (F : Flags α) : FlagSetting α → Flags α
  | .normal_projection v => { F with normal_projection := v }
  | .lock_neighbors v => { F with lock_neighbors := v }
  | .step_size_normal v => { F with step_size_normal := v }
  | .step_size_tangent v => { F with step_size_tangent := v }
  | .num_neighbors v => { F with num_neighbors := v }
  | .iterations v => { F with iterations := v }
  | .max_leaf_size v => { F with max_leaf_size := v }
  | .num_threads v => { F with num_threads := v }
  | .codimension v => { F with codimension := v }

/-- The flag values after all flag arguments were processed left to right. -/
def parsed_flags {α : Type} (F : Flags α) : List (Arg α) → Flags α
  | [] => F
  | Arg.flag f :: rest => parsed_flags (f.assign F) rest
  | Arg.positional _ :: rest => parsed_flags F rest

/-- The non-flag arguments, in their original order. -/
def positionals {α : Type} : List (Arg α) → List String
  | [] => []
  | Arg.flag _ :: rest => positionals rest
  | Arg.positional s :: rest => s :: positionals rest

/-- Line 49: `gflags::ParseCommandLineFlags(&argc, &argv, true)`.  With
`remove_flags = true` the library assigns the flags, leaves in `argv` the
program name followed by the non-flag arguments, and returns 1, the index of
the first of them.  The result is the flag values, the new `argv` and the
returned index; the new `argc` is the length of the new `argv`. -/
def ParseCommandLineFlags {α : Type} (F : Flags α) (argv0 : String) (args : List (Arg α)) :
    Flags α × List String × Nat :=
  (parsed_flags F args, argv0 :: positionals args, 1)

/-! ## The collaborating classes -/

/-- The two `PointCloud` objects declared on lines 62–63. -/
inductive Obj
  | point_cloud
  | evolved_cloud
  deriving DecidableEq, Repr

/-- Modelled from the spec: the class `PointCloud` (include/PointCloud.h is not
available) as "an ordered, fixed-length sequence of `n` points, each a vector
in a `d`-dimensional real space". -/
structure PointCloud (α : Type) where
  dimension : Nat
  cloud : List (List α)
  deriving DecidableEq, Repr

/-- The state of a default-constructed `PointCloud` (lines 62–63). -/
def PointCloud.empty {α : Type} : PointCloud α :=
  { dimension := 0, cloud := [] }

/-- Number of points `n`. -/
def PointCloud.num_points {α : Type} (pc : PointCloud α) : Nat :=
  pc.cloud.length

/-- Every point of the cloud has `dimension` coordinates. -/
def PointCloud.WellFormed {α : Type} (pc : PointCloud α) : Prop :=
  ∀ p ∈ pc.cloud, p.length = pc.dimension

instance PointCloud.decidableWellFormed {α : Type} (pc : PointCloud α) :
    Decidable pc.WellFormed :=
  inferInstanceAs (Decidable (∀ p ∈ pc.cloud, p.length = pc.dimension))

/-- Modelled from the spec: `PointCloud::get_dimension` (not available), the
dimension `d` of the cloud.  Its C++ return type is not known; the comparison
on line 67 is taken over the integers. -/
def PointCloud.get_dimension {α : Type} (pc : PointCloud α) : Int :=
  (pc.dimension : Int)

/-- Modelled from the spec: `PointCloud::get_cloud` (not available), the
coordinate array of the cloud. -/
def PointCloud.get_cloud {α : Type} (pc : PointCloud α) : List (List α) :=
  pc.cloud

/-- Modelled from the spec: `PointCloud::load_cloud` (not available), the
boundary loader "that returns an in-memory point cloud (coordinate count `n`,
dimension `d`) from an external array resource"; `disk path` is that cloud. -/
def PointCloud.load_cloud {α : Type} (disk : String → PointCloud α) (_self : PointCloud α)
    (path : String) : PointCloud α :=
  disk path

/-- Modelled from the spec: `PointCloud::copy_cloud` (not available): "an
evolved copy is created", with the dimension and the coordinates of `other`. -/
def PointCloud.copy_cloud {α : Type} (_self other : PointCloud α) : PointCloud α :=
  { dimension := other.dimension, cloud := other.cloud }

/-- The arguments of the `KDTree` constructor on line 75, with the object whose
coordinate array is passed by reference. -/
structure KDTree (α : Type) where
  dimension : Int
  source : Obj
  points : List (List α)
  max_leaf_size : Int
  deriving DecidableEq, Repr

/-- The arguments of the `Smoother` constructor on lines 82–83, in order. -/
structure Smoother (α : Type) where
  num_neighbors : Int
  dimension : Int
  codimension : Int
  num_threads : Int
  step_size_normal : α
  step_size_tangent : α
  normal_projection : Bool
  lock_neighbors : Bool
  deriving DecidableEq, Repr

/-- Modelled from the spec: the estimators of §4.1–4.4 (nearest-neighbour
queries, local frame, DTM gradient; include/smoother.h is not available).  For
a smoother configuration, the coordinates held by the spatial index, the
current position buffer and the index of a point, they give the normal and the
tangent component of the estimated gradient at that point. -/
structure GradientEstimator (α : Type) where
  normal_component : Smoother α → List (List α) → List (List α) → Nat → List α
  tangent_component : Smoother α → List (List α) → List (List α) → Nat → List α

/-- Coordinate-wise sum of two vectors. -/
def vadd {α : Type} [Add α] (p q : List α) : List α :=
  List.zipWith (fun x y => x + y) p q

/-- A vector scaled by a step size. -/
def vscale {α : Type} [Mul α] (s : α) (v : List α) : List α :=
  v.map (fun x => s * x)

/-- Modelled from the spec: the explicit Euler update of §4.5 (not available),
`next_position = current_position + step_normal · (normal component)
[+ step_tangent · (tangent component), unless normal_projection]`. -/
def next_position {α : Type} [Add α] [Mul α] (s : Smoother α) (p N T : List α) : List α :=
  if s.normal_projection then
    vadd p (vscale s.step_size_normal N)
  else
    vadd (vadd p (vscale s.step_size_normal N)) (vscale s.step_size_tangent T)

/-- Modelled from the spec: one iteration of §4.5/§4.6 (not available): every
point of the "next" buffer is computed from the "current" buffer as it stood
before the iteration. -/
def iteration {α : Type} [Add α] [Mul α] (est : GradientEstimator α) (s : Smoother α)
    (indexed current : List (List α)) : List (List α) :=
  current.mapIdx (fun i p =>
    next_position s p (est.normal_component s indexed current i)
      (est.tangent_component s indexed current i))

/-- Modelled from the spec: the position buffer after `t` iterations (not
available).  With locked neighbours the index keeps the coordinates of the
original cloud; otherwise it is rebuilt from the current buffer at the start
of every iteration (§4.2). -/
def positions {α : Type} [Add α] [Mul α] (est : GradientEstimator α) (s : Smoother α)
    (original start : List (List α)) : Nat → List (List α)
  | 0 => start
  | t + 1 =>
    let current := positions est s original start t
    iteration est s (if s.lock_neighbors then original else current) current

/-- Modelled from the spec: `Smoother::smooth_point_cloud` (not available):
"runs for exactly `T` discrete steps", starting from the evolved copy; the
result is the new state of the evolved cloud.  A `for` loop bounded by a
negative count runs no step. -/
def Smoother.smooth_point_cloud {α : Type} [Add α] [Mul α] (est : GradientEstimator α)
    (s : Smoother α) (point_cloud evolved_cloud : PointCloud α) (iterations : Int) :
    PointCloud α :=
  { dimension := evolved_cloud.dimension
    cloud := positions est s point_cloud.cloud evolved_cloud.cloud iterations.toNat }

/-- The calls `main` makes on its collaborators, with their arguments. -/
inductive Event (α : Type)
  | load_cloud (self : Obj) (path : String)
  | copy_cloud (self other : Obj)
  | new_KDTree (tree : KDTree α)
  | buildIndex
  | assign_kd_tree (self : Obj) (tree : KDTree α) (num_neighbors : Int) (lock_neighbors : Bool)
      (num_threads : Int)
  | new_Smoother (smoother : Smoother α)
  | smooth_point_cloud (a b : Obj) (iterations : Int)
  | save_cloud (self : Obj) (path : String) (saved : PointCloud α)
  deriving DecidableEq, Repr

/-- The three `return` statements of `main`. -/
inductive ReturnSite
  | line55
  | line69
  | line89
  deriving DecidableEq, Repr

/-- What a run of `main` leaves behind. -/
structure Outcome (α : Type) where
  log : List LogRecord
  trace : List (Event α)
  returned_at : ReturnSite
  status : Int
  deriving DecidableEq, Repr

/-- Lines 41–90.  `disk path` is the cloud that `load_cloud` reads from `path`.
The result is `none` when an access to `argv` is outside `0 .. argc - 1`.
Exceptions raised inside the collaborators are not modelled: every call returns. -/
def main {α : Type} [Add α] [Mul α] [OfScientific α] (est : GradientEstimator α)
    (disk : String → PointCloud α) (argv0 : String) (args : List (Arg α)) :
    Option (Outcome α) :=
  let log := LOG [] Severity.info "Starting GradSmooth."
  let (FLAGS, argv, arg_indx) := ParseCommandLineFlags FLAGS_default argv0 args
  let argc := argv.length
  if argc ≠ 3 then
    some
      { log := LOG log Severity.error
          ("Incorrect number of command line args." ++ " Please specify input and output path.")
        trace := []
        returned_at := ReturnSite.line55
        status := 0 }
  else
    match argv[arg_indx]?, argv[arg_indx + 1]? with
    | some infn, some outfn =>
      let log := LOG log Severity.info ("Using input path: " ++ infn)
      let log := LOG log Severity.info ("Using output path: " ++ outfn)
      let point_cloud : PointCloud α := PointCloud.empty
      let evolved_cloud : PointCloud α := PointCloud.empty
      let point_cloud := point_cloud.load_cloud disk infn
      let trace := [Event.load_cloud Obj.point_cloud infn]
      if FLAGS.codimension ≥ point_cloud.get_dimension then
        some
          { log := LOG log Severity.fatal
              "Loaded point cloud with lower dimension than codimension!"
            trace := trace
            returned_at := ReturnSite.line69
            status := 0 }
      else
        let evolved_cloud := evolved_cloud.copy_cloud point_cloud
        let trace := trace ++ [Event.copy_cloud Obj.evolved_cloud Obj.point_cloud]
        let log := LOG log Severity.info "Building k-d Tree"
        let kd_tree : KDTree α :=
          { dimension := point_cloud.get_dimension
            source := Obj.point_cloud
            points := point_cloud.get_cloud
            max_leaf_size := FLAGS.max_leaf_size }
        let trace := trace ++ [Event.new_KDTree kd_tree, Event.buildIndex]
        let log := LOG log Severity.debug
          ("Successfully populated k-d Tree with " ++ toString kd_tree.points.length ++ " points")
        let trace := trace ++ [Event.assign_kd_tree Obj.point_cloud kd_tree FLAGS.num_neighbors
          FLAGS.lock_neighbors FLAGS.num_threads]
        let smoother : Smoother α :=
          { num_neighbors := FLAGS.num_neighbors
            dimension := point_cloud.get_dimension
            codimension := FLAGS.codimension
            num_threads := FLAGS.num_threads
            step_size_normal := FLAGS.step_size_normal
            step_size_tangent := FLAGS.step_size_tangent
            normal_projection := FLAGS.normal_projection
            lock_neighbors := FLAGS.lock_neighbors }
        let trace := trace ++ [Event.new_Smoother smoother]
        let evolved_cloud :=
          smoother.smooth_point_cloud est point_cloud evolved_cloud FLAGS.iterations
        let trace := trace ++ [Event.smooth_point_cloud Obj.point_cloud Obj.evolved_cloud
          FLAGS.iterations]
        let trace := trace ++ [Event.save_cloud Obj.evolved_cloud outfn evolved_cloud]
        some
          { log := log
            trace := trace
            returned_at := ReturnSite.line89
            status := 0 }
    | _, _ => none

/-! ## Sample inputs -/

/-- An estimator that reports a zero gradient everywhere. -/
def zero_estimator : GradientEstimator ℚ :=
  { normal_component := fun s _ _ _ => List.replicate s.dimension.toNat 0
    tangent_component := fun s _ _ _ => List.replicate s.dimension.toNat 0 }

/-- A disk on which every path holds the same two points of the plane. -/
def sample_disk : String → PointCloud ℚ :=
  fun _ => { dimension := 2, cloud := [[0, 0], [1, 1]] }

/-- The command line `gradsmooth in.npy out.npy`. -/
def plain_args : List (Arg ℚ) :=
  [Arg.positional "in.npy", Arg.positional "out.npy"]

/-- The command line `gradsmooth --codimension=2 in.npy out.npy`. -/
def codimension_two_args : List (Arg ℚ) :=
  [Arg.flag (FlagSetting.codimension 2), Arg.positional "in.npy", Arg.positional "out.npy"]

/-- The command line `gradsmooth in.npy --iterations=-1 out.npy`. -/
def negative_iterations_args : List (Arg ℚ) :=
  [Arg.positional "in.npy", Arg.flag (FlagSetting.iterations (-1)), Arg.positional "out.npy"]

/-- The command line `gradsmooth --iterations=0 in.npy out.npy`. -/
def zero_iterations_args : List (Arg ℚ) :=
  [Arg.flag (FlagSetting.iterations 0), Arg.positional "in.npy", Arg.positional "out.npy"]

/-! ## The three paths through `main` -/

section paths

variable {α : Type} [Add α] [Mul α] [OfScientific α]

/-- Any number of positional arguments other than two ends at line 55. -/
theorem main_wrong_count (est : GradientEstimator α) (disk : String → PointCloud α)
    (argv0 : String) (args : List (Arg α)) (h : (positionals args).length ≠ 2) :
    main est disk argv0 args = some
      { log := [{ severity := Severity.info, message := "Starting GradSmooth." },
          { severity := Severity.error,
            message := "Incorrect number of command line args." ++
              " Please specify input and output path." }]
        trace := []
        returned_at := ReturnSite.line55
        status := 0 } := by
  unfold main
  simp [ParseCommandLineFlags, h, LOG, checkSeverity, Severity.toNat, maxSeverity]

/-- Two positional arguments and `codimension ≥ dimension` end at line 69. -/
theorem main_rejected (est : GradientEstimator α) (disk : String → PointCloud α)
    (argv0 : String) (args : List (Arg α)) (a b : String) (h : positionals args = [a, b])
    (hc : (parsed_flags FLAGS_default args).codimension ≥ ((disk a).dimension : Int)) :
    main est disk argv0 args = some
      { log := [{ severity := Severity.info, message := "Starting GradSmooth." },
          { severity := Severity.info, message := "Using input path: " ++ a },
          { severity := Severity.info, message := "Using output path: " ++ b },
          { severity := Severity.fatal,
            message := "Loaded point cloud with lower dimension than codimension!" }]
        trace := [Event.load_cloud Obj.point_cloud a]
        returned_at := ReturnSite.line69
        status := 0 } := by
  unfold main
  simp [ParseCommandLineFlags, h, PointCloud.load_cloud, PointCloud.get_dimension, hc, LOG,
    checkSeverity, Severity.toNat, maxSeverity]

/-- Two positional arguments and `codimension < dimension` run through to line 89. -/
theorem main_completed (est : GradientEstimator α) (disk : String → PointCloud α)
    (argv0 : String) (args : List (Arg α)) (a b : String) (h : positionals args = [a, b])
    (hc : (parsed_flags FLAGS_default args).codimension < ((disk a).dimension : Int)) :
    main est disk argv0 args = some
      { log := [{ severity := Severity.info, message := "Starting GradSmooth." },
          { severity := Severity.info, message := "Using input path: " ++ a },
          { severity := Severity.info, message := "Using output path: " ++ b },
          { severity := Severity.info, message := "Building k-d Tree" }]
        trace :=
          [Event.load_cloud Obj.point_cloud a,
           Event.copy_cloud Obj.evolved_cloud Obj.point_cloud,
           Event.new_KDTree
             { dimension := ((disk a).dimension : Int)
               source := Obj.point_cloud
               points := (disk a).cloud
               max_leaf_size := (parsed_flags FLAGS_default args).max_leaf_size },
           Event.buildIndex,
           Event.assign_kd_tree Obj.point_cloud
             { dimension := ((disk a).dimension : Int)
               source := Obj.point_cloud
               points := (disk a).cloud
               max_leaf_size := (parsed_flags FLAGS_default args).max_leaf_size }
             (parsed_flags FLAGS_default args).num_neighbors
             (parsed_flags FLAGS_default args).lock_neighbors
             (parsed_flags FLAGS_default args).num_threads,
           Event.new_Smoother
             { num_neighbors := (parsed_flags FLAGS_default args).num_neighbors
               dimension := ((disk a).dimension : Int)
               codimension := (parsed_flags FLAGS_default args).codimension
               num_threads := (parsed_flags FLAGS_default args).num_threads
               step_size_normal := (parsed_flags FLAGS_default args).step_size_normal
               step_size_tangent := (parsed_flags FLAGS_default args).step_size_tangent
               normal_projection := (parsed_flags FLAGS_default args).normal_projection
               lock_neighbors := (parsed_flags FLAGS_default args).lock_neighbors },
           Event.smooth_point_cloud Obj.point_cloud Obj.evolved_cloud
             (parsed_flags FLAGS_default args).iterations,
           Event.save_cloud Obj.evolved_cloud b
             { dimension := (disk a).dimension
               cloud := positions est
                 { num_neighbors := (parsed_flags FLAGS_default args).num_neighbors
                   dimension := ((disk a).dimension : Int)
                   codimension := (parsed_flags FLAGS_default args).codimension
                   num_threads := (parsed_flags FLAGS_default args).num_threads
                   step_size_normal := (parsed_flags FLAGS_default args).step_size_normal
                   step_size_tangent := (parsed_flags FLAGS_default args).step_size_tangent
                   normal_projection := (parsed_flags FLAGS_default args).normal_projection
                   lock_neighbors := (parsed_flags FLAGS_default args).lock_neighbors }
                 (disk a).cloud (disk a).cloud
                 (parsed_flags FLAGS_default args).iterations.toNat }]
        returned_at := ReturnSite.line89
        status := 0 } := by
  unfold main
  simp [ParseCommandLineFlags, h, PointCloud.load_cloud, PointCloud.get_dimension,
    PointCloud.get_cloud, PointCloud.copy_cloud, Smoother.smooth_point_cloud, hc, LOG,
    checkSeverity, Severity.toNat, maxSeverity]

end paths

/-- Without flag arguments the flag values keep their initial value. -/
theorem parsed_flags_of_no_flag {α : Type} (F : Flags α) (args : List (Arg α))
    (h : ∀ f, Arg.flag f ∉ args) : parsed_flags F args = F := by
  induction args with
  | nil => rfl
  | cons x rest ih =>
    cases x with
    | flag f => exact absurd (List.mem_cons_self _ _) (h f)
    | positional s =>
      simp only [parsed_flags]
      exact ih (fun f hf => h f (List.mem_cons_of_mem _ hf))

/-- A list of length two is a pair. -/
theorem exists_pair_of_length_two (l : List String) (h : l.length = 2) :
    ∃ a b, l = [a, b] := by
  match l, h with
  | [a, b], _ => exact ⟨a, b, rfl⟩

/-! ## The smoothing iterations -/

section smoothing

variable {α : Type} [Add α] [Mul α]

end smoothing

section driver

variable {α : Type} [Add α] [Mul α] [OfScientific α]

/-- C1: a run with two positional arguments that loads a cloud of dimension `d` with
codimension flag `c` returns at the codimension check (line 69, with the fatal record
logged) if and only if `c ≥ d`; and in that case the only call made is the load: no copy,
no index build, no neighbour assignment, no smoothing, no save. -/
theorem codimension_check_rejects_iff (est : GradientEstimator α)
    (disk : String → PointCloud α) (argv0 : String) (args : List (Arg α)) (a b : String)
    (h : positionals args = [a, b]) :
    ∃ r, main est disk argv0 args = some r ∧
      (r.returned_at = ReturnSite.line69 ↔
        (parsed_flags FLAGS_default args).codimension ≥ ((disk a).dimension : Int)) ∧
      (({ severity := Severity.fatal,
          message := "Loaded point cloud with lower dimension than codimension!" } : LogRecord)
          ∈ r.log ↔
        (parsed_flags FLAGS_default args).codimension ≥ ((disk a).dimension : Int)) ∧
      (r.returned_at = ReturnSite.line69 → r.trace = [Event.load_cloud Obj.point_cloud a]) := by
  by_cases hc : (parsed_flags FLAGS_default args).codimension ≥ ((disk a).dimension : Int)
  · exact ⟨_, main_rejected est disk argv0 args a b h hc, by simp [hc], by simp [hc], by simp⟩
  · have hlt : (parsed_flags FLAGS_default args).codimension < ((disk a).dimension : Int) :=
      lt_of_not_ge hc
    exact ⟨_, main_completed est disk argv0 args a b h hlt, by simp [hc], by simp [hc],
      by simp⟩

/-- C1 at `gradsmooth --codimension=2 in.npy out.npy` on the sample disk. -/
theorem codimension_check_rejects_iff_witness :
    positionals codimension_two_args = ["in.npy", "out.npy"] ∧
    ∃ r, main zero_estimator sample_disk "gradsmooth" codimension_two_args = some r ∧
      (r.returned_at = ReturnSite.line69 ↔
        (parsed_flags FLAGS_default codimension_two_args).codimension ≥
          ((sample_disk "in.npy").dimension : Int)) ∧
      (({ severity := Severity.fatal,
          message := "Loaded point cloud with lower dimension than codimension!" } : LogRecord)
          ∈ r.log ↔
        (parsed_flags FLAGS_default codimension_two_args).codimension ≥
          ((sample_disk "in.npy").dimension : Int)) ∧
      (r.returned_at = ReturnSite.line69 →
        r.trace = [Event.load_cloud Obj.point_cloud "in.npy"]) :=
  ⟨rfl, codimension_check_rejects_iff zero_estimator sample_disk "gradsmooth"
    codimension_two_args "in.npy" "out.npy" rfl⟩

/-- C2 as stated fails at `gradsmooth in.npy --iterations=-1 out.npy` on the sample disk:
the neighbour count 5 is not below the point count 2 and the iteration count is negative,
yet `main` logs nothing above severity info and its first four calls are the load, the
copy, the construction of the index and `buildIndex`; so the run is not one in which the
index is never built. -/
theorem neighbor_count_not_validated_counterexample :
    (parsed_flags FLAGS_default negative_iterations_args).num_neighbors ≥
      ((sample_disk "in.npy").num_points : Int) ∧
    (parsed_flags FLAGS_default negative_iterations_args).iterations < 0 ∧
    (main zero_estimator sample_disk "gradsmooth" negative_iterations_args).map
        (fun r => r.log) = some
      [{ severity := Severity.info, message := "Starting GradSmooth." },
       { severity := Severity.info, message := "Using input path: in.npy" },
       { severity := Severity.info, message := "Using output path: out.npy" },
       { severity := Severity.info, message := "Building k-d Tree" }] ∧
    (main zero_estimator sample_disk "gradsmooth" negative_iterations_args).map
        (fun r => r.trace.take 4) = some
      ([Event.load_cloud Obj.point_cloud "in.npy",
        Event.copy_cloud Obj.evolved_cloud Obj.point_cloud,
        Event.new_KDTree
          { dimension := 2, source := Obj.point_cloud, points := [[0, 0], [1, 1]],
            max_leaf_size := 10 },
        Event.buildIndex] : List (Event ℚ)) ∧
    ¬ ∃ r, main zero_estimator sample_disk "gradsmooth" negative_iterations_args = some r ∧
        Event.buildIndex ∉ r.trace := by
  refine ⟨by decide, by decide, rfl, rfl, ?_⟩
  rintro ⟨r, hr, hn⟩
  rw [main_completed zero_estimator sample_disk "gradsmooth" negative_iterations_args
    "in.npy" "out.npy" rfl (by decide)] at hr
  cases hr
  simp at hn

/-- C2 (amended): `main` checks only the argument count and `c ≥ d`.  Whatever the
neighbour count `k` and the iteration count `T` are, a run with two positional arguments
and `c < d` is not rejected: it logs nothing above severity info, builds the index, hands
`k` unchanged to the neighbour assignment and `T` unchanged to the smoother, and returns at
line 89. -/
theorem neighbor_and_iteration_counts_unchecked (est : GradientEstimator α)
    (disk : String → PointCloud α) (argv0 : String) (args : List (Arg α)) (a b : String)
    (h : positionals args = [a, b])
    (hc : (parsed_flags FLAGS_default args).codimension < ((disk a).dimension : Int)) :
    ∃ r, main est disk argv0 args = some r ∧
      r.returned_at = ReturnSite.line89 ∧
      (∀ record ∈ r.log, record.severity = Severity.info) ∧
      Event.buildIndex ∈ r.trace ∧
      (∃ tree, Event.assign_kd_tree Obj.point_cloud tree
        (parsed_flags FLAGS_default args).num_neighbors
        (parsed_flags FLAGS_default args).lock_neighbors
        (parsed_flags FLAGS_default args).num_threads ∈ r.trace) ∧
      Event.smooth_point_cloud Obj.point_cloud Obj.evolved_cloud
        (parsed_flags FLAGS_default args).iterations ∈ r.trace := by
  refine ⟨_, main_completed est disk argv0 args a b h hc, rfl, ?_, ?_, ?_, ?_⟩
  · simp
  · simp
  · exact ⟨{ dimension := ((disk a).dimension : Int)
             source := Obj.point_cloud
             points := (disk a).cloud
             max_leaf_size := (parsed_flags FLAGS_default args).max_leaf_size }, by simp⟩
  · simp

/-- C2 (amended) at `gradsmooth in.npy --iterations=-1 out.npy` on the sample disk. -/
theorem neighbor_and_iteration_counts_unchecked_witness :
    positionals negative_iterations_args = ["in.npy", "out.npy"] ∧
    (parsed_flags FLAGS_default negative_iterations_args).codimension <
      ((sample_disk "in.npy").dimension : Int) ∧
    ∃ r, main zero_estimator sample_disk "gradsmooth" negative_iterations_args = some r ∧
      r.returned_at = ReturnSite.line89 ∧
      (∀ record ∈ r.log, record.severity = Severity.info) ∧
      Event.buildIndex ∈ r.trace ∧
      (∃ tree, Event.assign_kd_tree Obj.point_cloud tree
        (parsed_flags FLAGS_default negative_iterations_args).num_neighbors
        (parsed_flags FLAGS_default negative_iterations_args).lock_neighbors
        (parsed_flags FLAGS_default negative_iterations_args).num_threads ∈ r.trace) ∧
      Event.smooth_point_cloud Obj.point_cloud Obj.evolved_cloud
        (parsed_flags FLAGS_default negative_iterations_args).iterations ∈ r.trace :=
  ⟨rfl, by decide, neighbor_and_iteration_counts_unchecked zero_estimator sample_disk
    "gradsmooth" negative_iterations_args "in.npy" "out.npy" rfl (by decide)⟩

/-- C5: a run that passes both checks makes each of its calls exactly once, in this order:
load the input cloud, copy it into the evolved cloud, construct and build the index,
assign neighbours, construct the smoother and run it for the configured iteration count,
save the evolved cloud. -/
theorem stages_once_in_order (est : GradientEstimator α) (disk : String → PointCloud α)
    (argv0 : String) (args : List (Arg α)) (a b : String) (h : positionals args = [a, b])
    (hc : (parsed_flags FLAGS_default args).codimension < ((disk a).dimension : Int)) :
    ∃ r tree smoother saved, main est disk argv0 args = some r ∧
      r.returned_at = ReturnSite.line89 ∧
      r.trace =
        [Event.load_cloud Obj.point_cloud a,
         Event.copy_cloud Obj.evolved_cloud Obj.point_cloud,
         Event.new_KDTree tree,
         Event.buildIndex,
         Event.assign_kd_tree Obj.point_cloud tree
           (parsed_flags FLAGS_default args).num_neighbors
           (parsed_flags FLAGS_default args).lock_neighbors
           (parsed_flags FLAGS_default args).num_threads,
         Event.new_Smoother smoother,
         Event.smooth_point_cloud Obj.point_cloud Obj.evolved_cloud
           (parsed_flags FLAGS_default args).iterations,
         Event.save_cloud Obj.evolved_cloud b saved] ∧
      saved = smoother.smooth_point_cloud est (disk a)
        (PointCloud.copy_cloud PointCloud.empty (disk a))
        (parsed_flags FLAGS_default args).iterations :=
  ⟨_, _, _, _, main_completed est disk argv0 args a b h hc, rfl, rfl, rfl⟩

/-- C5 at `gradsmooth in.npy out.npy` on the sample disk. -/
theorem stages_once_in_order_witness :
    positionals plain_args = ["in.npy", "out.npy"] ∧
    (parsed_flags FLAGS_default plain_args).codimension <
      ((sample_disk "in.npy").dimension : Int) ∧
    ∃ r tree smoother saved,
      main zero_estimator sample_disk "gradsmooth" plain_args = some r ∧
      r.returned_at = ReturnSite.line89 ∧
      r.trace =
        [Event.load_cloud Obj.point_cloud "in.npy",
         Event.copy_cloud Obj.evolved_cloud Obj.point_cloud,
         Event.new_KDTree tree,
         Event.buildIndex,
         Event.assign_kd_tree Obj.point_cloud tree
           (parsed_flags FLAGS_default plain_args).num_neighbors
           (parsed_flags FLAGS_default plain_args).lock_neighbors
           (parsed_flags FLAGS_default plain_args).num_threads,
         Event.new_Smoother smoother,
         Event.smooth_point_cloud Obj.point_cloud Obj.evolved_cloud
           (parsed_flags FLAGS_default plain_args).iterations,
         Event.save_cloud Obj.evolved_cloud "out.npy" saved] ∧
      saved = smoother.smooth_point_cloud zero_estimator (sample_disk "in.npy")
        (PointCloud.copy_cloud PointCloud.empty (sample_disk "in.npy"))
        (parsed_flags FLAGS_default plain_args).iterations :=
  ⟨rfl, by decide, stages_once_in_order zero_estimator sample_disk "gradsmooth" plain_args
    "in.npy" "out.npy" rfl (by decide)⟩

/-- C6: in a run that passes both checks, the only index constructed takes the loaded
cloud's dimension, the coordinate array of the object `point_cloud` (the loaded cloud, not
the evolved copy) and `max_leaf_size`; the only neighbour assignment is made on
`point_cloud` with that index; and the neighbour count, the `lock_neighbors` flag and the
thread count it receives are the ones the smoother is constructed with. -/
theorem index_built_from_loaded_cloud (est : GradientEstimator α)
    (disk : String → PointCloud α) (argv0 : String) (args : List (Arg α)) (a b : String)
    (h : positionals args = [a, b])
    (hc : (parsed_flags FLAGS_default args).codimension < ((disk a).dimension : Int)) :
    ∃ r, main est disk argv0 args = some r ∧
      (∀ tree, Event.new_KDTree tree ∈ r.trace ↔
        tree = { dimension := ((disk a).dimension : Int)
                 source := Obj.point_cloud
                 points := (disk a).cloud
                 max_leaf_size := (parsed_flags FLAGS_default args).max_leaf_size }) ∧
      (∀ o tree k lock threads, Event.assign_kd_tree o tree k lock threads ∈ r.trace ↔
        (o = Obj.point_cloud ∧ Event.new_KDTree tree ∈ r.trace ∧
          k = (parsed_flags FLAGS_default args).num_neighbors ∧
          lock = (parsed_flags FLAGS_default args).lock_neighbors ∧
          threads = (parsed_flags FLAGS_default args).num_threads)) ∧
      (∃ smoother, Event.new_Smoother smoother ∈ r.trace) ∧
      (∀ smoother o tree k lock threads, Event.new_Smoother smoother ∈ r.trace →
        Event.assign_kd_tree o tree k lock threads ∈ r.trace →
        smoother.num_neighbors = k ∧ smoother.lock_neighbors = lock ∧
          smoother.num_threads = threads) := by
  refine ⟨_, main_completed est disk argv0 args a b h hc, ?_, ?_, ?_, ?_⟩
  · intro tree
    simp
  · intro o tree k lock threads
    simp
  · exact ⟨{ num_neighbors := (parsed_flags FLAGS_default args).num_neighbors
             dimension := ((disk a).dimension : Int)
             codimension := (parsed_flags FLAGS_default args).codimension
             num_threads := (parsed_flags FLAGS_default args).num_threads
             step_size_normal := (parsed_flags FLAGS_default args).step_size_normal
             step_size_tangent := (parsed_flags FLAGS_default args).step_size_tangent
             normal_projection := (parsed_flags FLAGS_default args).normal_projection
             lock_neighbors := (parsed_flags FLAGS_default args).lock_neighbors }, by simp⟩
  · intro smoother o tree k lock threads hs ha
    simp at hs ha
    subst hs
    obtain ⟨_, _, hk, hl, ht⟩ := ha
    simp [hk, hl, ht]

/-- C6 at `gradsmooth in.npy out.npy` on the sample disk. -/
theorem index_built_from_loaded_cloud_witness :
    positionals plain_args = ["in.npy", "out.npy"] ∧
    (parsed_flags FLAGS_default plain_args).codimension <
      ((sample_disk "in.npy").dimension : Int) ∧
    ∃ r, main zero_estimator sample_disk "gradsmooth" plain_args = some r ∧
      (∀ tree, Event.new_KDTree tree ∈ r.trace ↔
        tree = { dimension := ((sample_disk "in.npy").dimension : Int)
                 source := Obj.point_cloud
                 points := (sample_disk "in.npy").cloud
                 max_leaf_size := (parsed_flags FLAGS_default plain_args).max_leaf_size }) ∧
      (∀ o tree k lock threads, Event.assign_kd_tree o tree k lock threads ∈ r.trace ↔
        (o = Obj.point_cloud ∧ Event.new_KDTree tree ∈ r.trace ∧
          k = (parsed_flags FLAGS_default plain_args).num_neighbors ∧
          lock = (parsed_flags FLAGS_default plain_args).lock_neighbors ∧
          threads = (parsed_flags FLAGS_default plain_args).num_threads)) ∧
      (∃ smoother, Event.new_Smoother smoother ∈ r.trace) ∧
      (∀ smoother o tree k lock threads, Event.new_Smoother smoother ∈ r.trace →
        Event.assign_kd_tree o tree k lock threads ∈ r.trace →
        smoother.num_neighbors = k ∧ smoother.lock_neighbors = lock ∧
          smoother.num_threads = threads) :=
  ⟨rfl, by decide, index_built_from_loaded_cloud zero_estimator sample_disk "gradsmooth"
    plain_args "in.npy" "out.npy" rfl (by decide)⟩

/-- C8: `main` makes any call at all (load, index, smoothing, save) only when `argc` after
flag parsing is 3, that is when exactly two positional arguments remain; for any other
count it returns at line 55 having made no call.  With two positional arguments both
accesses to `argv` are in bounds, the cloud is loaded from the first of them and a save,
when there is one, goes to the second. -/
theorem load_and_save_only_with_two_positionals (est : GradientEstimator α)
    (disk : String → PointCloud α) (argv0 : String) (args : List (Arg α)) :
    ((ParseCommandLineFlags (FLAGS_default : Flags α) argv0 args).2.1.length = 3 ↔
      (positionals args).length = 2) ∧
    (ParseCommandLineFlags (FLAGS_default : Flags α) argv0 args).2.2 = 1 ∧
    ∃ r, main est disk argv0 args = some r ∧
      ((positionals args).length ≠ 2 →
        r.trace = [] ∧ r.returned_at = ReturnSite.line55) ∧
      (∀ a b, positionals args = [a, b] →
        r.trace.head? = some (Event.load_cloud Obj.point_cloud a) ∧
        (∀ o path, Event.load_cloud o path ∈ r.trace → path = a) ∧
        (∀ o path saved, Event.save_cloud o path saved ∈ r.trace → path = b)) := by
  refine ⟨by simp [ParseCommandLineFlags], rfl, ?_⟩
  by_cases hn : (positionals args).length = 2
  · obtain ⟨a, b, hab⟩ := exists_pair_of_length_two _ hn
    by_cases hc : (parsed_flags FLAGS_default args).codimension ≥ ((disk a).dimension : Int)
    · refine ⟨_, main_rejected est disk argv0 args a b hab hc, fun h => absurd hn h, ?_⟩
      intro a1 b1 h1
      rw [hab] at h1
      simp at h1
      obtain ⟨ha, hb⟩ := h1
      subst ha hb
      simp
    · refine ⟨_, main_completed est disk argv0 args a b hab (lt_of_not_ge hc),
        fun h => absurd hn h, ?_⟩
      intro a1 b1 h1
      rw [hab] at h1
      simp at h1
      obtain ⟨ha, hb⟩ := h1
      subst ha hb
      simp
      intro _ _ _ _ hp _
      exact hp
  · refine ⟨_, main_wrong_count est disk argv0 args hn, fun _ => ⟨rfl, rfl⟩, ?_⟩
    intro a b hab
    rw [hab] at hn
    simp at hn

/-- C9: whatever the command line and the disk, `main` returns, and its exit status is 0:
at line 55 after the argument-count error, at line 69 after the fatal codimension record,
and at line 89 after the save. -/
theorem exit_status_always_zero (est : GradientEstimator α) (disk : String → PointCloud α)
    (argv0 : String) (args : List (Arg α)) :
    ∃ r, main est disk argv0 args = some r ∧ r.status = 0 ∧
      (r.returned_at = ReturnSite.line55 ∨ r.returned_at = ReturnSite.line69 ∨
        r.returned_at = ReturnSite.line89) := by
  by_cases hn : (positionals args).length = 2
  · obtain ⟨a, b, hab⟩ := exists_pair_of_length_two _ hn
    by_cases hc : (parsed_flags FLAGS_default args).codimension ≥ ((disk a).dimension : Int)
    · exact ⟨_, main_rejected est disk argv0 args a b hab hc, rfl, Or.inr (Or.inl rfl)⟩
    · exact ⟨_, main_completed est disk argv0 args a b hab (lt_of_not_ge hc), rfl,
        Or.inr (Or.inr rfl)⟩
  · exact ⟨_, main_wrong_count est disk argv0 args hn, rfl, Or.inl rfl⟩

/-- C10: on a command line without flag arguments and with two positional arguments, for a
loaded cloud of dimension above 1, the values handed on are the defaults: the index gets
`max_leaf_size = 10`; the neighbour assignment gets `num_neighbors = 5`,
`lock_neighbors = false`, `num_threads = 1`; the smoother is constructed with
`num_neighbors = 5`, `codimension = 1`, `num_threads = 1`, `step_size_normal = 0.10`,
`step_size_tangent = 0.0`, `normal_projection = false`, `lock_neighbors = false` and run
with `iterations = 10`. -/
theorem default_configuration (est : GradientEstimator α) (disk : String → PointCloud α)
    (argv0 : String) (args : List (Arg α)) (a b : String)
    (hno : ∀ f, Arg.flag f ∉ args) (h : positionals args = [a, b])
    (hd : 1 < (disk a).dimension) :
    ∃ r, main est disk argv0 args = some r ∧
      r.trace =
        [Event.load_cloud Obj.point_cloud a,
         Event.copy_cloud Obj.evolved_cloud Obj.point_cloud,
         Event.new_KDTree
           { dimension := ((disk a).dimension : Int), source := Obj.point_cloud,
             points := (disk a).cloud, max_leaf_size := 10 },
         Event.buildIndex,
         Event.assign_kd_tree Obj.point_cloud
           { dimension := ((disk a).dimension : Int), source := Obj.point_cloud,
             points := (disk a).cloud, max_leaf_size := 10 } 5 false 1,
         Event.new_Smoother
           { num_neighbors := 5, dimension := ((disk a).dimension : Int), codimension := 1,
             num_threads := 1, step_size_normal := 0.10, step_size_tangent := 0.0,
             normal_projection := false, lock_neighbors := false },
         Event.smooth_point_cloud Obj.point_cloud Obj.evolved_cloud 10,
         Event.save_cloud Obj.evolved_cloud b
           (Smoother.smooth_point_cloud est
             { num_neighbors := 5, dimension := ((disk a).dimension : Int), codimension := 1,
               num_threads := 1, step_size_normal := 0.10, step_size_tangent := 0.0,
               normal_projection := false, lock_neighbors := false }
             (disk a) (PointCloud.copy_cloud PointCloud.empty (disk a)) 10)] := by
  have hF : parsed_flags (FLAGS_default : Flags α) args = FLAGS_default :=
    parsed_flags_of_no_flag _ args hno
  have hc : (parsed_flags (FLAGS_default : Flags α) args).codimension <
      ((disk a).dimension : Int) := by
    rw [hF]
    simp only [FLAGS_default]
    exact_mod_cast hd
  refine ⟨_, main_completed est disk argv0 args a b h hc, ?_⟩
  simp only [hF]
  rfl

/-- C10 at `gradsmooth in.npy out.npy` on the sample disk. -/
theorem default_configuration_witness :
    (∀ f, Arg.flag f ∉ plain_args) ∧
    positionals plain_args = ["in.npy", "out.npy"] ∧
    1 < (sample_disk "in.npy").dimension ∧
    ∃ r, main zero_estimator sample_disk "gradsmooth" plain_args = some r ∧
      r.trace =
        [Event.load_cloud Obj.point_cloud "in.npy",
         Event.copy_cloud Obj.evolved_cloud Obj.point_cloud,
         Event.new_KDTree
           { dimension := ((sample_disk "in.npy").dimension : Int), source := Obj.point_cloud,
             points := (sample_disk "in.npy").cloud, max_leaf_size := 10 },
         Event.buildIndex,
         Event.assign_kd_tree Obj.point_cloud
           { dimension := ((sample_disk "in.npy").dimension : Int), source := Obj.point_cloud,
             points := (sample_disk "in.npy").cloud, max_leaf_size := 10 } 5 false 1,
         Event.new_Smoother
           { num_neighbors := 5, dimension := ((sample_disk "in.npy").dimension : Int),
             codimension := 1, num_threads := 1, step_size_normal := 0.10,
             step_size_tangent := 0.0, normal_projection := false, lock_neighbors := false },
         Event.smooth_point_cloud Obj.point_cloud Obj.evolved_cloud 10,
         Event.save_cloud Obj.evolved_cloud "out.npy"
           (Smoother.smooth_point_cloud zero_estimator
             { num_neighbors := 5, dimension := ((sample_disk "in.npy").dimension : Int),
               codimension := 1, num_threads := 1, step_size_normal := 0.10,
               step_size_tangent := 0.0, normal_projection := false, lock_neighbors := false }
             (sample_disk "in.npy") (PointCloud.copy_cloud PointCloud.empty (sample_disk "in.npy"))
             10)] :=
  ⟨by simp [plain_args], rfl, by decide,
    default_configuration zero_estimator sample_disk "gradsmooth" plain_args "in.npy"
      "out.npy" (by simp [plain_args]) rfl (by decide)⟩

/-! ## The evolved cloud handed to the saver -/

/-- C3: with `iterations = 0`, in a run that passes both checks the evolved cloud is
initialised as a copy of the loaded cloud, the smoother leaves it as it is, and the cloud
handed to `save_cloud` is the loaded cloud itself. -/
theorem zero_iterations_saves_input (est : GradientEstimator α)
    (disk : String → PointCloud α) (argv0 : String) (args : List (Arg α)) (a b : String)
    (h : positionals args = [a, b])
    (hc : (parsed_flags FLAGS_default args).codimension < ((disk a).dimension : Int))
    (hT : (parsed_flags FLAGS_default args).iterations = 0) :
    PointCloud.copy_cloud PointCloud.empty (disk a) = disk a ∧
    (∀ s : Smoother α, s.smooth_point_cloud est (disk a) (disk a) 0 = disk a) ∧
    ∃ r, main est disk argv0 args = some r ∧
      r.trace.getLast? = some (Event.save_cloud Obj.evolved_cloud b (disk a)) ∧
      (∀ o path saved, Event.save_cloud o path saved ∈ r.trace → saved = disk a) := by
  refine ⟨rfl, fun s => rfl, _, main_completed est disk argv0 args a b h hc, ?_, ?_⟩
  · simp [hT, positions]
  · intro o path saved hs
    simp [hT, positions] at hs
    exact hs.2.2

/-- C3 at `gradsmooth --iterations=0 in.npy out.npy` on the sample disk. -/
theorem zero_iterations_saves_input_witness :
    positionals zero_iterations_args = ["in.npy", "out.npy"] ∧
    (parsed_flags FLAGS_default zero_iterations_args).codimension <
      ((sample_disk "in.npy").dimension : Int) ∧
    (parsed_flags FLAGS_default zero_iterations_args).iterations = 0 ∧
    PointCloud.copy_cloud PointCloud.empty (sample_disk "in.npy") = sample_disk "in.npy" ∧
    (∀ s : Smoother ℚ, s.smooth_point_cloud zero_estimator (sample_disk "in.npy")
      (sample_disk "in.npy") 0 = sample_disk "in.npy") ∧
    ∃ r, main zero_estimator sample_disk "gradsmooth" zero_iterations_args = some r ∧
      r.trace.getLast? =
        some (Event.save_cloud Obj.evolved_cloud "out.npy" (sample_disk "in.npy")) ∧
      (∀ o path saved, Event.save_cloud o path saved ∈ r.trace →
        saved = sample_disk "in.npy") :=
  ⟨rfl, by decide, rfl, zero_iterations_saves_input zero_estimator sample_disk "gradsmooth"
    zero_iterations_args "in.npy" "out.npy" rfl (by decide) rfl⟩

end driver

end GradSmooth
